import Mathlib

/-!
Shallow embedding of the Simplified Knowledge dashboards
(src/streamlit_app.py, src/pages/streamlit_app.py, src/pages/Assistant_AI.py
and the AI chat assistant page): the publication search filter, the URL
content fetcher with its LRU memoization, the summarization short-circuit,
and the session-state transition of a search rerun, together with theorems
settling the frozen claims about them.

External services (the HTTP stack, PyPDF2 page extraction, BeautifulSoup
text extraction, the Gemini endpoint) are modeled as explicit oracle inputs,
exactly at the boundary where the Python code calls them; everything the
repository's own code does with their results is embedded faithfully.
-/

namespace SB

/-- Whitespace characters recognized by Python str.split with no arguments. -/
def pyIsSpace (c : Char) : Bool :=
  c == ' ' || c == '\t' || c == '\n' || c == '\r' || c == '\x0b' || c == '\x0c'

/-- Boolean test that the first character list is an initial segment of the second. -/
def listStarts : List Char → List Char → Bool
  | [], _ => true
  | _ :: _, [] => false
  | a :: as, b :: bs => (a == b) && listStarts as bs

/-- Boolean contiguous-substring test: needle occurs somewhere inside hay. -/
def listContains (needle : List Char) : List Char → Bool
  | [] => listStarts needle []
  | c :: cs => listStarts needle (c :: cs) || listContains needle cs

/-- Python s.lower(), character by character (ASCII case folding). -/
def pyLower (s : String) : String := String.mk (s.data.map Char.toLower)

/-- Python s.startswith(pre). -/
def pyStartswith (s pre : String) : Bool := listStarts pre.data s.data

/-- Python s.endswith(suf). -/
def pyEndswith (s suf : String) : Bool := listStarts suf.data.reverse s.data.reverse

/-- Python substring membership test, sub in s. -/
def pyIn (sub s : String) : Bool := listContains sub.data s.data

/-- Accumulator worker for Python str.split() with no separator: splits on runs
of whitespace and drops empty pieces; cur holds the current word reversed. -/
def pyWordsAux : List Char → List Char → List (List Char)
  | cur, [] => if cur = [] then [] else [cur.reverse]
  | cur, c :: cs =>
    if pyIsSpace c then
      if cur = [] then pyWordsAux [] cs else cur.reverse :: pyWordsAux [] cs
    else pyWordsAux (c :: cur) cs

/-- Python str.split() with no arguments, on character lists. -/
def pyWords (l : List Char) : List (List Char) := pyWordsAux [] l

/-- Worker for Python s.split(': '): cut at each non-overlapping occurrence of
colon-space, keeping empty pieces; acc holds the current piece reversed. -/
def pySplitCSAux : List Char → List Char → List (List Char)
  | acc, ':' :: ' ' :: cs => acc.reverse :: pySplitCSAux [] cs
  | acc, c :: cs => pySplitCSAux (c :: acc) cs
  | acc, [] => [acc.reverse]

/-- Python s.split(': '), the only separator the code splits on. -/
def pySplitColonSpace (s : String) : List String :=
  (pySplitCSAux [] s.data).map String.mk

/-- Python sep.join(words) at the character-list level. -/
def pyJoin (sep : List Char) : List (List Char) → List Char
  | [] => []
  | [w] => w
  | w :: ws => w ++ sep ++ pyJoin sep ws

/-- Absence of two adjacent whitespace characters (no whitespace run survives). -/
def noWsRun : List Char → Bool
  | a :: b :: t => (!(pyIsSpace a && pyIsSpace b)) && noWsRun (b :: t)
  | _ => true

/-!
Search model. Every variant filters the table with
df.Title.astype(str).str.contains(query, ...). pandas str.contains defaults
to regex=True, so the user query is interpreted as a Python regular
expression via re.search, not as a literal substring. The fragment of regex
patterns modeled here is literals plus the dot wildcard, which is exact for
every query free of the other metacharacters.
-/

/-- Tokens of the modeled regular-expression fragment: literal characters and
the dot wildcard of re.search, the engine behind pandas str.contains. -/
inductive RTok where
  | lit (c : Char)
  | dot
deriving DecidableEq

/-- Compilation of the user query into regex tokens. -/
def parseQuery (q : String) : List RTok :=
  q.data.map (fun c => if c == '.' then RTok.dot else RTok.lit c)

/-- Case-insensitive character comparison, modeling case=False (re.IGNORECASE). -/
def charCF (a b : Char) : Bool := a.toLower == b.toLower

/-- Case-sensitive character comparison; src/pages/Assistant_AI.py lowercases
both sides itself and calls str.contains with its default case handling. -/
def charCS (a b : Char) : Bool := a == b

/-- Match of one token against one character; dot matches anything but newline. -/
def tokMatches (eqc : Char → Char → Bool) : RTok → Char → Bool
  | RTok.lit l, c => eqc l c
  | RTok.dot, c => c != '\n'

/-- Match of a whole token list against an initial segment of the text. -/
def toksMatchAt (eqc : Char → Char → Bool) : List RTok → List Char → Bool
  | [], _ => true
  | _ :: _, [] => false
  | t :: ts, c :: cs => tokMatches eqc t c && toksMatchAt eqc ts cs

/-- Model of re.search: the token list matches at some position of the text. -/
def reSearch (eqc : Char → Char → Bool) (ts : List RTok) : List Char → Bool
  | [] => toksMatchAt eqc ts []
  | c :: cs => toksMatchAt eqc ts (c :: cs) || reSearch eqc ts cs

/-- One row of SB_publication_PMC.csv: Title may be null (pandas NaN) and Link
is a URL string. Extra columns play no role in any claim. -/
structure Row where
  Title : Option String
  Link : String
deriving DecidableEq

/-- pandas astype(str) on a Title cell: NaN is rendered as the string "nan". -/
def astypeStr : Option String → String
  | none => "nan"
  | some s => s

/-- Row predicate of df.Title.astype(str).str.contains(q, case=False, na=False),
as used by search_page (src/streamlit_app.py line 222,
src/pages/streamlit_app.py line 196) and by find_relevant_publications of the
AI chat assistant page (lines 63-66). -/
def rowMatchesCF (q : String) (r : Row) : Bool :=
  reSearch charCF (parseQuery q) (astypeStr r.Title).data

/-- Row predicate of df.Title.astype(str).str.lower().str.contains(q.lower(),
na=False) used by src/pages/Assistant_AI.py line 49. -/
def rowMatchesLower (q : String) (r : Row) : Bool :=
  reSearch charCS (parseQuery (pyLower q)) (pyLower (astypeStr r.Title)).data

/-- results_df computed by search_page (src/pages/streamlit_app.py lines
195-197; identically src/streamlit_app.py lines 221-223): guarded by the
truthiness test if search_query, then the str.contains row filter. When the
query is empty no result set is produced, rendered here as the empty list. -/
def search_page_results (df : List Row) (q : String) : List Row :=
  if q ≠ "" then df.filter (rowMatchesCF q) else []

/-- find_relevant_publications of the AI chat assistant page (lines 60-67):
the same filter followed by head(top_k); an empty query yields an empty
DataFrame. -/
def find_relevant_publications (q : String) (df : List Row) (top_k : Nat) : List Row :=
  if q ≠ "" then (df.filter (rowMatchesCF q)).take top_k else []

/-- find_relevant_publications of src/pages/Assistant_AI.py (lines 47-51),
which lowercases both sides instead of passing case=False. -/
def find_relevant_publications_assist (q : String) (df : List Row) (top_k : Nat) : List Row :=
  if q ≠ "" then (df.filter (rowMatchesLower q)).take top_k else []

/-- Specification-side predicate, following the spec's words: the Title
contains the query as a case-insensitive literal substring. -/
def containsCI (hay needle : String) : Bool :=
  listContains (needle.data.map Char.toLower) (hay.data.map Char.toLower)

/-- Specification-side test that a query is empty or consists only of whitespace. -/
def blankQuery (q : String) : Bool := q.data.all pyIsSpace

/-- Characters that are special in Python regular expressions. -/
def reMetachars : List Char :=
  ['.', '^', '$', '*', '+', '?', '\x7b', '\x7d', '[', ']', '\\', '|', '(', ')']

/-- Queries free of regex metacharacters: the regime in which str.contains
with its default regex interpretation is plain substring search. -/
def noMeta (q : String) : Bool := q.data.all (fun c => !(reMetachars.contains c))

/-!
Content fetcher. fetch_url_text (src/pages/streamlit_app.py lines 127-155;
src/streamlit_app.py lines 165-190 differs only in the human-readable wording
after each error tag). requests.get together with the response's parsing
libraries is the external boundary: a call either raises a RequestException
or produces a response with a status code, a Content-Type header, and the
two library-level text-extraction outcomes the code can ask of its body.
-/

/-- Response of a completed requests.get: the status code, the Content-Type
header, the text of the HTTPError that raise_for_status would raise for it,
the PyPDF2 outcome on its bytes (list of extract_text results per page, or
the exception message), and the BeautifulSoup outcome on its text (the string
soup.body.get_text(separator=" ", strip=True) after script and style tags are
decomposed, or the exception message). -/
structure HttpResponse where
  statusCode : Nat
  contentType : String
  errText : String
  pdfParse : Except String (List String)
  htmlParse : Except String String

/-- Outcome of requests.get(url, ...): either a raised RequestException with
its message, or a response. -/
inductive GetOutcome where
  | exn (msg : String)
  | resp (r : HttpResponse)

/-- Content-type sniffing of fetch_url_text: "pdf" in content_type.lower()
or the URL (lowercased) ends in ".pdf". -/
def isPdfBranch (url ct : String) : Bool :=
  pyIn "pdf" (pyLower ct) || pyEndswith (pyLower url) ".pdf"

/-- fetch_url_text body (src/pages/streamlit_app.py lines 128-155), given the
outcome of the network layer. raise_for_status raises HTTPError exactly for
status codes 400-599; that exception and any other RequestException map to an
ERROR_FETCH string. The PDF branch joins the extract_text of pages whose
extract_text is truthy with newlines; the HTML branch is
" ".join(text.split())[:25000] on the extracted body text. PyPDF2 and
BeautifulSoup exceptions map to ERROR_PDF_PARSE and ERROR_HTML_PARSE strings.
The function always returns a string and never raises. -/
def fetch_url_text (url : String) (net : GetOutcome) : String :=
  match net with
  | GetOutcome.exn e => "ERROR_FETCH: Request failed - " ++ e
  | GetOutcome.resp r =>
    if 400 ≤ r.statusCode ∧ r.statusCode < 600 then
      "ERROR_FETCH: Request failed - " ++ r.errText
    else if isPdfBranch url r.contentType then
      match r.pdfParse with
      | Except.ok pages => String.intercalate "\n" (pages.filter (fun p => p ≠ ""))
      | Except.error e => "ERROR_PDF_PARSE: PDF reading failed - " ++ e
    else
      match r.htmlParse with
      | Except.ok raw => String.mk ((pyJoin [' '] (pyWords raw.data)).take 25000)
      | Except.error e => "ERROR_HTML_PARSE: HTML parsing failed - " ++ e

/-- State of the functools.lru_cache(maxsize=128) wrapper around
fetch_url_text plus call-count instrumentation: cache is the memo table in
most-recently-used-first order, calls the log of URLs for which the wrapped
function body actually ran (one entry per real network request). -/
structure FetchState where
  cache : List (String × String)
  calls : List String
deriving DecidableEq

/-- Lookup in the memo table by exact URL string. -/
def lruLookup (cache : List (String × String)) (url : String) : Option String :=
  match cache.find? (fun e => e.1 == url) with
  | some e => some e.2
  | none => none

/-- On a cache hit, lru_cache moves the entry to the most-recent position. -/
def moveToFront (url : String) (cache : List (String × String)) : List (String × String) :=
  match cache.find? (fun e => e.1 == url) with
  | some e => e :: cache.filter (fun e2 => !(e2.1 == url))
  | none => cache

/-- One call of the lru_cache(maxsize=128)-wrapped fetch_url_text: a hit
returns the memoized string without running the body; a miss runs the body,
logs the network request, inserts the result as most recent and evicts the
least recently used entry beyond capacity 128. -/
def cachedFetch (net : String → GetOutcome) (st : FetchState) (url : String) :
    String × FetchState :=
  match lruLookup st.cache url with
  | some v => (v, { cache := moveToFront url st.cache, calls := st.calls })
  | none =>
    let v := fetch_url_text url (net url)
    (v, { cache := ((url, v) :: st.cache).take 128, calls := st.calls ++ [url] })

/-- Sequence of calls to the cached fetch_url_text. -/
def runFetches (net : String → GetOutcome) : FetchState → List String → FetchState
  | st, [] => st
  | st, u :: us => runFetches net (cachedFetch net st u).2 us

/-!
Summarization client. summarize_text_with_gemini
(src/pages/streamlit_app.py lines 157-173; src/streamlit_app.py lines
192-203). The remote model is the external boundary: its outcome for the
built prompt is an oracle, and the second component of the result counts how
many times generate_content was invoked.
-/

/-- summarize_text_with_gemini: empty or ERROR-prefixed input short-circuits
to a fixed apology string carrying text.split(': ')[-1], without calling the
model (count 0); otherwise the model is called once, its exception mapping to
an ERROR_GEMINI string. -/
def summarize_text_with_gemini (gen : Except String String) (text : String) :
    String × Nat :=
  if text = "" || pyStartswith text "ERROR" then
    ("Could not summarize due to a content error: " ++ (pySplitColonSpace text).getLastD "", 0)
  else
    match gen with
    | Except.ok r => (r, 1)
    | Except.error e => ("ERROR_GEMINI: API call failed - " ++ e, 1)

/-- Prefix test search_page applies to a cached summary before rendering
(src/pages/streamlit_app.py line 241; src/streamlit_app.py line 265): true
selects the visible-failure branch, false renders plain markdown. -/
def ui_marks_failed (summary_content : String) : Bool :=
  pyStartswith summary_content "ERROR" || pyStartswith summary_content "CRITICAL_ERROR"

/-!
Session-state transition of a search rerun, restricted to the summary cache.
-/

/-- Session slice relevant to the summary cache: summary_dict and the
last_query marker, none when the last_query key is absent. -/
structure Session where
  summary_dict : List (String × String)
  last_query : Option String
deriving DecidableEq

/-- Effect of one search_page rerun of src/pages/streamlit_app.py (lines
195-208) on this session slice: inside the truthy-query branch and only when
the new result set is non-empty, a changed (or absent) last_query clears
summary_dict wholesale and records the new query. -/
def pages_search_step (df : List Row) (q : String) (s : Session) : Session :=
  if q ≠ "" then
    if (df.filter (rowMatchesCF q)).isEmpty then s
    else if s.last_query ≠ some q then { summary_dict := [], last_query := some q }
    else s
  else s

/-- Effect of one search_page rerun of src/streamlit_app.py (lines 221-232)
on summary_dict: the block under the comment that says it clears the summary
state only assigns the empty dict when the summary_dict key is absent
(present = false), so existing entries survive every query change. -/
def main_search_step (df : List Row) (q : String) (present : Bool)
    (dict : List (String × String)) : List (String × String) :=
  if q ≠ "" then
    if (df.filter (rowMatchesCF q)).isEmpty then dict
    else if present then dict else []
  else dict

/-! Helper lemmas. -/

theorem strData_append (a b : String) : (a ++ b).data = a.data ++ b.data := by
  cases a; cases b; rfl

theorem listStarts_append_left (p : List Char) :
    ∀ (a x : List Char), p.length ≤ a.length → listStarts p (a ++ x) = listStarts p a := by
  induction p with
  | nil => intro a x _; rfl
  | cons c p ih =>
    intro a x h
    cases a with
    | nil => simp at h
    | cons b a' =>
      simp only [List.cons_append, listStarts, List.append_eq]
      rw [ih a' x (by simpa using h)]

theorem pyStartswith_append (pre lit x : String) (h : pre.data.length ≤ lit.data.length) :
    pyStartswith (lit ++ x) pre = pyStartswith lit pre := by
  unfold pyStartswith
  rw [strData_append, listStarts_append_left pre.data lit.data x.data h]

theorem toksMatchAt_lit (l : List Char) :
    ∀ cs : List Char, toksMatchAt charCF (l.map RTok.lit) cs
      = listStarts (l.map Char.toLower) (cs.map Char.toLower) := by
  induction l with
  | nil => intro cs; rfl
  | cons a l ih =>
    intro cs
    cases cs with
    | nil => rfl
    | cons c cs' =>
      simp only [List.map_cons, toksMatchAt, tokMatches, listStarts, charCF]
      rw [ih cs']

theorem reSearch_lit (l : List Char) :
    ∀ cs : List Char, reSearch charCF (l.map RTok.lit) cs
      = listContains (l.map Char.toLower) (cs.map Char.toLower) := by
  intro cs
  induction cs with
  | nil =>
    simpa using toksMatchAt_lit l []
  | cons c cs ih =>
    show (toksMatchAt charCF (l.map RTok.lit) (c :: cs) || reSearch charCF (l.map RTok.lit) cs)
      = (listStarts (l.map Char.toLower) ((c :: cs).map Char.toLower)
        || listContains (l.map Char.toLower) (cs.map Char.toLower))
    rw [toksMatchAt_lit, ih]

theorem parseQuery_noMeta (q : String) (h : noMeta q = true) :
    parseQuery q = q.data.map RTok.lit := by
  unfold parseQuery
  apply List.map_congr_left
  intro c hc
  have hmc : reMetachars.contains c = false := by
    simpa using List.all_eq_true.mp h c hc
  have hdot : (c == '.') = false := by
    cases hdec : c == '.'
    · rfl
    · exfalso
      have : c = '.' := by simpa using hdec
      subst this
      simp [reMetachars] at hmc
  simp [hdot]

theorem rowMatchesCF_eq_containsCI (q : String) (h : noMeta q = true) (r : Row) :
    rowMatchesCF q r = containsCI (astypeStr r.Title) q := by
  unfold rowMatchesCF containsCI
  rw [parseQuery_noMeta q h, reSearch_lit]

/-! Claim C1: search as a filter. The code interprets the query as a regular
expression (pandas str.contains default), so titles can be returned that do
not contain the query as a substring; for metacharacter-free queries the two
notions coincide, and order preservation and the top-k truncation hold. -/

/-- Claim C1 counterexample: with query "." the row titled "ab" is returned
by search_page and by the chat page's find_relevant_publications, although
"ab" does not contain "." case-insensitively, refuting the claim that only
records whose Title contains the query are returned. -/
theorem C1_counterexample :
    Row.mk (some "ab") "L" ∈ search_page_results [Row.mk (some "ab") "L"] "."
    ∧ containsCI "ab" "." = false
    ∧ Row.mk (some "ab") "L" ∈ find_relevant_publications "." [Row.mk (some "ab") "L"] 5 := by
  decide

/-- Claim C1 (amended): for every non-empty query free of regex
metacharacters, search_page returns exactly the rows whose Title contains the
query case-insensitively, as a stable filter (a sublist of the table, so no
outside record and original order), and the chat variant truncates that same
filter to its first top_k = 5 matches. -/
theorem C1_theorem (df : List Row) (q : String) (hq : q ≠ "") (hm : noMeta q = true) :
    search_page_results df q = df.filter (fun r => containsCI (astypeStr r.Title) q)
    ∧ List.Sublist (search_page_results df q) df
    ∧ find_relevant_publications q df 5
        = (df.filter (fun r => containsCI (astypeStr r.Title) q)).take 5 := by
  have hfilter : df.filter (rowMatchesCF q)
      = df.filter (fun r => containsCI (astypeStr r.Title) q) :=
    List.filter_congr (fun r _ => rowMatchesCF_eq_containsCI q hm r)
  refine ⟨?_, ?_, ?_⟩
  · rw [search_page_results, if_pos hq]; exact hfilter
  · rw [search_page_results, if_pos hq]; exact List.filter_sublist df
  · rw [find_relevant_publications, if_pos hq, hfilter]

/-- Claim C1 witness: the amended statement instantiated at a one-row table
and the metacharacter-free query "rad". -/
theorem C1_witness :
    ("rad" ≠ "") ∧ noMeta "rad" = true
    ∧ (search_page_results [Row.mk (some "Radiation shielding") "L"] "rad"
          = ([Row.mk (some "Radiation shielding") "L"].filter
              (fun r => containsCI (astypeStr r.Title) "rad"))
      ∧ List.Sublist (search_page_results [Row.mk (some "Radiation shielding") "L"] "rad")
          [Row.mk (some "Radiation shielding") "L"]
      ∧ find_relevant_publications "rad" [Row.mk (some "Radiation shielding") "L"] 5
          = ([Row.mk (some "Radiation shielding") "L"].filter
              (fun r => containsCI (astypeStr r.Title) "rad")).take 5) :=
  ⟨by decide, by decide, C1_theorem _ _ (by decide) (by decide)⟩

/-! Claim C2: blank queries. Only the empty string is falsy in Python, so the
truthiness guard lets whitespace-only queries through as ordinary searches. -/

/-- Claim C2 counterexample: the whitespace-only query " " is blank in the
claim's sense, yet search_page and the Assistant_AI variant return the row
titled "a b" for it instead of an empty result set. -/
theorem C2_counterexample :
    blankQuery " " = true
    ∧ search_page_results [Row.mk (some "a b") "L"] " " = [Row.mk (some "a b") "L"]
    ∧ find_relevant_publications_assist " " [Row.mk (some "a b") "L"] 5
        = [Row.mk (some "a b") "L"] := by
  decide

/-- Claim C2 (amended): for every table, the empty query returns the empty
result set in all three search variants; any non-empty query, including
whitespace-only ones, passes the truthiness guard and is handled as an
ordinary match filter. -/
theorem C2_theorem (df : List Row) (k : Nat) (q : String) :
    search_page_results df "" = []
    ∧ find_relevant_publications "" df k = []
    ∧ find_relevant_publications_assist "" df k = []
    ∧ (q ≠ "" → search_page_results df q = df.filter (rowMatchesCF q)) := by
  refine ⟨?_, ?_, ?_, ?_⟩
  · rw [search_page_results, if_neg (by simp)]
  · rw [find_relevant_publications, if_neg (by simp)]
  · rw [find_relevant_publications_assist, if_neg (by simp)]
  · intro h; rw [search_page_results, if_pos h]

/-- Claim C2 witness: the amended statement instantiated at a one-row table
with the whitespace query " ". -/
theorem C2_witness :
    search_page_results [Row.mk (some "a b") "L"] "" = []
    ∧ find_relevant_publications "" [Row.mk (some "a b") "L"] 5 = []
    ∧ find_relevant_publications_assist "" [Row.mk (some "a b") "L"] 5 = []
    ∧ (" " ≠ "" → search_page_results [Row.mk (some "a b") "L"] " "
        = [Row.mk (some "a b") "L"].filter (rowMatchesCF " ")) :=
  C2_theorem [Row.mk (some "a b") "L"] 5 " "

/-! Claim C9: null titles. astype(str) renders NaN as the string "nan", so a
null-title row is matched like a row literally titled "nan" and can be
returned, for example by the query "nan". -/

/-- Claim C9 counterexample: a row whose Title is null is returned by
search_page for the query "nan", refuting the claim that such rows never
appear in any result set. -/
theorem C9_counterexample :
    Row.mk none "L" ∈ search_page_results [Row.mk none "L"] "nan"
    ∧ (Row.mk none "L").Title = none := by
  decide

/-- Claim C9 (amended): null titles are coerced by astype(str) to the string
"nan" and never raise (the filter is total); a null-title row appears in the
search_page result set exactly when it is in the table, the query is
non-empty, and the query matches "nan" under the case-insensitive regex
containment the code uses. -/
theorem C9_theorem (df : List Row) (q link : String) :
    astypeStr none = "nan"
    ∧ (Row.mk none link ∈ search_page_results df q
        ↔ Row.mk none link ∈ df ∧ q ≠ ""
            ∧ reSearch charCF (parseQuery q) ("nan".data) = true) := by
  refine ⟨rfl, ?_⟩
  by_cases hq : q = ""
  · subst hq
    rw [search_page_results, if_neg (by simp)]
    simp
  · rw [search_page_results, if_pos hq, List.mem_filter]
    constructor
    · intro hmem
      exact ⟨hmem.1, hq, hmem.2⟩
    · intro hmem
      exact ⟨hmem.1, hmem.2.2⟩

/-! Claim C3: network failures. A RequestException and raise_for_status both
map to an ERROR_FETCH string, but raise_for_status fires only for status
codes 400-599, so a non-2xx status below 400 (such as 304) proceeds to
content extraction instead of producing a FetchError. -/

/-- Claim C3 counterexample: an HTTP 304 response, which is not a 2xx status,
does not yield an ERROR_FETCH result; fetch_url_text proceeds to the HTML
branch and returns the extracted text. -/
theorem C3_counterexample :
    fetch_url_text "http://x"
        (GetOutcome.resp ⟨304, "text/html", "err304", Except.ok [], Except.ok "hello"⟩)
      = "hello"
    ∧ pyStartswith "hello" "ERROR_FETCH" = false
    ∧ ¬(200 ≤ (304 : Nat) ∧ (304 : Nat) ≤ 299) := by
  decide

/-- Claim C3 (amended): a raised RequestException (DNS failure, timeout) and
any HTTP status in 400-599 make fetch_url_text return an ERROR_FETCH-tagged
string carrying the underlying reason, and the function is total — it never
raises past the fetch boundary; statuses outside 400-599 are not treated as
failures. -/
theorem C3_theorem (url e : String) (r : HttpResponse)
    (h : 400 ≤ r.statusCode ∧ r.statusCode < 600) :
    fetch_url_text url (GetOutcome.exn e) = "ERROR_FETCH: Request failed - " ++ e
    ∧ fetch_url_text url (GetOutcome.resp r) = "ERROR_FETCH: Request failed - " ++ r.errText
    ∧ pyStartswith (fetch_url_text url (GetOutcome.exn e)) "ERROR_FETCH" = true
    ∧ pyStartswith (fetch_url_text url (GetOutcome.resp r)) "ERROR_FETCH" = true := by
  have h1 : fetch_url_text url (GetOutcome.exn e)
      = "ERROR_FETCH: Request failed - " ++ e := rfl
  have h2 : fetch_url_text url (GetOutcome.resp r)
      = "ERROR_FETCH: Request failed - " ++ r.errText := by
    simp only [fetch_url_text]
    rw [if_pos h]
  refine ⟨h1, h2, ?_, ?_⟩
  · rw [h1, pyStartswith_append _ _ _ (by decide)]; decide
  · rw [h2, pyStartswith_append _ _ _ (by decide)]; decide

/-- Claim C3 witness: the amended statement instantiated at a 404 response. -/
theorem C3_witness :
    (400 ≤ (404 : Nat) ∧ (404 : Nat) < 600)
    ∧ (fetch_url_text "http://x" (GetOutcome.exn "timed out")
          = "ERROR_FETCH: Request failed - " ++ "timed out"
      ∧ fetch_url_text "http://x"
            (GetOutcome.resp ⟨404, "text/html", "404 Client Error", Except.ok [], Except.ok ""⟩)
          = "ERROR_FETCH: Request failed - "
              ++ (HttpResponse.mk 404 "text/html" "404 Client Error"
                    (Except.ok []) (Except.ok "")).errText
      ∧ pyStartswith (fetch_url_text "http://x" (GetOutcome.exn "timed out")) "ERROR_FETCH" = true
      ∧ pyStartswith (fetch_url_text "http://x"
            (GetOutcome.resp ⟨404, "text/html", "404 Client Error", Except.ok [], Except.ok ""⟩))
          "ERROR_FETCH" = true) :=
  ⟨by decide, C3_theorem "http://x" "timed out" _ (by decide)⟩

/-! Claim C4: PDF extraction. The join skips pages whose extract_text is
empty, but when every page is empty the join of the empty list is the empty
string — a success value, not the ParseError the claim requires; only a
PyPDF2 exception yields ERROR_PDF_PARSE. -/

/-- Claim C4 counterexample: a PDF response whose two pages both yield no
text makes fetch_url_text return the empty string, which carries no
ERROR_PDF_PARSE (nor any ERROR) tag, refuting the claimed ParseError. -/
theorem C4_counterexample :
    fetch_url_text "http://x/a.pdf"
        (GetOutcome.resp ⟨200, "application/pdf", "e", Except.ok ["", ""], Except.ok ""⟩)
      = ""
    ∧ pyStartswith "" "ERROR_PDF_PARSE" = false
    ∧ pyStartswith "" "ERROR" = false := by
  decide

/-- Claim C4 (amended): on the PDF branch with a successful PyPDF2 parse,
fetch_url_text concatenates the text of the pages that yield text with
newline separators, skipping the empty ones; when zero pages yield text the
result is the empty string, a success value rather than a ParseError. -/
theorem C4_theorem (url : String) (r : HttpResponse) (pages : List String)
    (hstat : ¬(400 ≤ r.statusCode ∧ r.statusCode < 600))
    (hpdf : isPdfBranch url r.contentType = true)
    (hparse : r.pdfParse = Except.ok pages) :
    fetch_url_text url (GetOutcome.resp r)
        = String.intercalate "\n" (pages.filter (fun p => p ≠ ""))
    ∧ (pages.filter (fun p => p ≠ "") = [] →
        fetch_url_text url (GetOutcome.resp r) = "") := by
  have heq : fetch_url_text url (GetOutcome.resp r)
      = String.intercalate "\n" (pages.filter (fun p => p ≠ "")) := by
    simp only [fetch_url_text]
    rw [if_neg hstat, if_pos hpdf, hparse]
  refine ⟨heq, fun hnil => ?_⟩
  rw [heq, hnil]
  rfl

/-- Claim C4 witness: the amended statement instantiated at a three-page PDF
whose middle page yields no text. -/
theorem C4_witness :
    ¬(400 ≤ (200 : Nat) ∧ (200 : Nat) < 600)
    ∧ isPdfBranch "http://x/a.pdf" "application/pdf" = true
    ∧ (fetch_url_text "http://x/a.pdf"
          (GetOutcome.resp ⟨200, "application/pdf", "e", Except.ok ["x", "", "y"], Except.ok ""⟩)
        = String.intercalate "\n" (["x", "", "y"].filter (fun p => p ≠ ""))
      ∧ (["x", "", "y"].filter (fun p => p ≠ "") = [] →
          fetch_url_text "http://x/a.pdf"
              (GetOutcome.resp ⟨200, "application/pdf", "e", Except.ok ["x", "", "y"], Except.ok ""⟩)
            = "")) :=
  ⟨by decide, by decide, C4_theorem "http://x/a.pdf" _ ["x", "", "y"] (by decide) (by decide) rfl⟩

/-! Claim C8: HTML extraction. The code applies " ".join(text.split()) to the
script-and-style-stripped body text and truncates to 25000 characters, so the
returned text has no whitespace runs, only plain spaces as whitespace, and
never exceeds the bound. -/

theorem noWsRun_cons_of (a : Char) (l : List Char)
    (ha : pyIsSpace a = false) (hl : noWsRun l = true) : noWsRun (a :: l) = true := by
  cases l with
  | nil => rfl
  | cons b t =>
    show ((!(pyIsSpace a && pyIsSpace b)) && noWsRun (b :: t)) = true
    rw [ha, hl]
    rfl

theorem noWsRun_append (w r : List Char)
    (hw : ∀ c ∈ w, pyIsSpace c = false) (hr : noWsRun r = true) :
    noWsRun (w ++ r) = true := by
  induction w with
  | nil => simpa using hr
  | cons a w ih =>
    have ha : pyIsSpace a = false := hw a (List.mem_cons_self a w)
    have ih' : noWsRun (w ++ r) = true := ih (fun c hc => hw c (List.mem_cons_of_mem a hc))
    rw [List.cons_append]
    exact noWsRun_cons_of a (w ++ r) ha ih'

theorem noWsRun_of_all (l : List Char) (h : ∀ c ∈ l, pyIsSpace c = false) :
    noWsRun l = true := by
  induction l with
  | nil => rfl
  | cons a t ih =>
    exact noWsRun_cons_of a t (h a (List.mem_cons_self a t))
      (ih fun c hc => h c (List.mem_cons_of_mem a hc))

theorem pyWordsAux_good :
    ∀ (l cur : List Char), (∀ c ∈ cur, pyIsSpace c = false) →
      ∀ w ∈ pyWordsAux cur l, w ≠ [] ∧ ∀ c ∈ w, pyIsSpace c = false := by
  intro l
  induction l with
  | nil =>
    intro cur hcur w hw
    unfold pyWordsAux at hw
    by_cases hc : cur = []
    · rw [if_pos hc] at hw
      exact absurd hw (List.not_mem_nil w)
    · rw [if_neg hc] at hw
      have hwc : w = cur.reverse := by simpa using hw
      subst hwc
      refine ⟨by simpa using hc, fun c hc' => hcur c (List.mem_reverse.mp hc')⟩
  | cons c cs ih =>
    intro cur hcur w hw
    unfold pyWordsAux at hw
    by_cases hsp : pyIsSpace c = true
    · rw [if_pos hsp] at hw
      by_cases hc : cur = []
      · rw [if_pos hc] at hw
        exact ih [] (by simp) w hw
      · rw [if_neg hc] at hw
        rcases List.mem_cons.mp hw with h1 | h2
        · subst h1
          refine ⟨by simpa using hc, fun c' hc' => hcur c' (List.mem_reverse.mp hc')⟩
        · exact ih [] (by simp) w h2
    · rw [if_neg hsp] at hw
      have hsp' : pyIsSpace c = false := by simpa using hsp
      refine ih (c :: cur) ?_ w hw
      intro c' hc'
      rcases List.mem_cons.mp hc' with h1 | h2
      · subst h1; exact hsp'
      · exact hcur c' h2

theorem pyWords_good (l : List Char) :
    ∀ w ∈ pyWords l, w ≠ [] ∧ ∀ c ∈ w, pyIsSpace c = false :=
  pyWordsAux_good l [] (by simp)

theorem pyJoin_noWsRun :
    ∀ ws : List (List Char),
      (∀ w ∈ ws, w ≠ [] ∧ ∀ c ∈ w, pyIsSpace c = false) →
      noWsRun (pyJoin [' '] ws) = true
      ∧ ∀ (c : Char) (l' : List Char), pyJoin [' '] ws = c :: l' → pyIsSpace c = false := by
  intro ws
  induction ws with
  | nil =>
    intro _
    refine ⟨rfl, fun c l' h => absurd h (by simp [pyJoin])⟩
  | cons w ws ih =>
    intro h
    have hw := h w (List.mem_cons_self w ws)
    cases ws with
    | nil =>
      refine ⟨noWsRun_of_all w hw.2, fun c l' hj => ?_⟩
      have hwc : w = c :: l' := hj
      exact hw.2 c (hwc ▸ List.mem_cons_self c l')
    | cons w' t =>
      have ih' := ih (fun x hx => h x (List.mem_cons_of_mem w hx))
      have hjoin : pyJoin [' '] (w :: w' :: t) = w ++ (' ' :: pyJoin [' '] (w' :: t)) := by
        show w ++ [' '] ++ pyJoin [' '] (w' :: t) = w ++ (' ' :: pyJoin [' '] (w' :: t))
        rw [List.append_assoc]
        rfl
      have htail : noWsRun (' ' :: pyJoin [' '] (w' :: t)) = true := by
        cases hJ : pyJoin [' '] (w' :: t) with
        | nil => rfl
        | cons c l' =>
          have hc : pyIsSpace c = false := ih'.2 c l' hJ
          have hrun : noWsRun (c :: l') = true := hJ ▸ ih'.1
          show ((!(pyIsSpace ' ' && pyIsSpace c)) && noWsRun (c :: l')) = true
          rw [hc, hrun]
          decide
      refine ⟨?_, ?_⟩
      · rw [hjoin]
        exact noWsRun_append w _ hw.2 htail
      · intro c l' hj
        rw [hjoin] at hj
        cases w with
        | nil => exact absurd rfl hw.1
        | cons a wt =>
          rw [List.cons_append] at hj
          injection hj with h1 _
          exact h1 ▸ hw.2 a (List.mem_cons_self a wt)

theorem pyJoin_mem_space :
    ∀ ws : List (List Char),
      (∀ w ∈ ws, ∀ c ∈ w, pyIsSpace c = false) →
      ∀ c ∈ pyJoin [' '] ws, pyIsSpace c = true → c = ' ' := by
  intro ws
  induction ws with
  | nil =>
    intro _ c hc
    exact absurd hc (List.not_mem_nil c)
  | cons w ws ih =>
    intro h c hc hsp
    cases ws with
    | nil =>
      have hf : pyIsSpace c = false := h w (List.mem_cons_self w _) c hc
      rw [hf] at hsp
      exact absurd hsp (by simp)
    | cons w' t =>
      have hc' : c ∈ w ++ [' '] ++ pyJoin [' '] (w' :: t) := hc
      rcases List.mem_append.mp hc' with h1 | h2
      · rcases List.mem_append.mp h1 with h3 | h4
        · have hf : pyIsSpace c = false := h w (List.mem_cons_self w _) c h3
          rw [hf] at hsp
          exact absurd hsp (by simp)
        · simpa using h4
      · exact ih (fun x hx => h x (List.mem_cons_of_mem w hx)) c h2 hsp

theorem noWsRun_take :
    ∀ (l : List Char) (n : Nat), noWsRun l = true → noWsRun (l.take n) = true := by
  intro l
  induction l with
  | nil =>
    intro n _
    simp [noWsRun]
  | cons a t ih =>
    intro n h
    cases t with
    | nil =>
      cases n with
      | zero => rfl
      | succ m => simp [List.take_succ_cons, noWsRun]
    | cons b t' =>
      cases n with
      | zero => rfl
      | succ m =>
        cases m with
        | zero => simp [List.take_succ_cons, noWsRun]
        | succ k =>
          have hh : (!(pyIsSpace a && pyIsSpace b)) = true ∧ noWsRun (b :: t') = true := by
            simpa [noWsRun, Bool.and_eq_true] using h
          have ht : noWsRun (b :: List.take k t') = true := by
            have := ih (k + 1) hh.2
            simpa [List.take_succ_cons] using this
          show ((!(pyIsSpace a && pyIsSpace b)) && noWsRun (b :: List.take k t')) = true
          rw [hh.1, ht]
          rfl

/-- Claim C8 (confirmed): on the HTML branch with a successful parse,
fetch_url_text returns " ".join(text.split()) truncated to 25000 characters:
the returned text is at most 25000 characters long, contains no two adjacent
whitespace characters, and every whitespace character in it is a single
plain space. Removal of script and style elements happens in the
BeautifulSoup call the htmlParse oracle stands for. -/
theorem C8_theorem (url : String) (r : HttpResponse) (raw : String)
    (hstat : ¬(400 ≤ r.statusCode ∧ r.statusCode < 600))
    (hbr : isPdfBranch url r.contentType = false)
    (hparse : r.htmlParse = Except.ok raw) :
    fetch_url_text url (GetOutcome.resp r)
        = String.mk ((pyJoin [' '] (pyWords raw.data)).take 25000)
    ∧ (fetch_url_text url (GetOutcome.resp r)).length ≤ 25000
    ∧ noWsRun (fetch_url_text url (GetOutcome.resp r)).data = true
    ∧ ∀ c ∈ (fetch_url_text url (GetOutcome.resp r)).data, pyIsSpace c = true → c = ' ' := by
  have heq : fetch_url_text url (GetOutcome.resp r)
      = String.mk ((pyJoin [' '] (pyWords raw.data)).take 25000) := by
    simp only [fetch_url_text]
    rw [if_neg hstat, if_neg (by simp [hbr]), hparse]
  have hgood := pyWords_good raw.data
  have hnws := (pyJoin_noWsRun (pyWords raw.data) hgood).1
  refine ⟨heq, ?_, ?_, ?_⟩
  · rw [heq]
    show ((pyJoin [' '] (pyWords raw.data)).take 25000).length ≤ 25000
    rw [List.length_take]
    exact Nat.min_le_left _ _
  · rw [heq]
    exact noWsRun_take _ 25000 hnws
  · rw [heq]
    intro c hc hsp
    exact pyJoin_mem_space (pyWords raw.data) (fun w hw => (hgood w hw).2) c
      (List.take_subset _ _ hc) hsp

/-- Claim C8 witness: the theorem instantiated at a 200 text/html response
whose extracted body text is " a  b c ". -/
theorem C8_witness :
    ¬(400 ≤ (200 : Nat) ∧ (200 : Nat) < 600)
    ∧ isPdfBranch "http://x" "text/html" = false
    ∧ (fetch_url_text "http://x"
          (GetOutcome.resp ⟨200, "text/html", "e", Except.ok [], Except.ok " a  b c "⟩)
        = String.mk ((pyJoin [' '] (pyWords " a  b c ".data)).take 25000)
      ∧ (fetch_url_text "http://x"
          (GetOutcome.resp ⟨200, "text/html", "e", Except.ok [], Except.ok " a  b c "⟩)).length ≤ 25000
      ∧ noWsRun (fetch_url_text "http://x"
          (GetOutcome.resp ⟨200, "text/html", "e", Except.ok [], Except.ok " a  b c "⟩)).data = true
      ∧ ∀ c ∈ (fetch_url_text "http://x"
          (GetOutcome.resp ⟨200, "text/html", "e", Except.ok [], Except.ok " a  b c "⟩)).data,
          pyIsSpace c = true → c = ' ') :=
  ⟨by decide, by decide, C8_theorem "http://x" _ " a  b c " (by decide) (by decide) rfl⟩

/-! Claim C5: memoization. lru_cache memoizes both outcomes by exact URL, but
its maxsize is 128, so entries are evicted and the cache is not
process-lifetime: after 129 distinct URLs the oldest is re-fetched. -/

theorem cachedFetch_hit (net : String → GetOutcome) (st : FetchState) (url v : String)
    (h : lruLookup st.cache url = some v) :
    cachedFetch net st url = (v, { cache := moveToFront url st.cache, calls := st.calls }) := by
  unfold cachedFetch
  rw [h]

theorem cachedFetch_lookup (net : String → GetOutcome) (st : FetchState) (url : String) :
    lruLookup (cachedFetch net st url).2.cache url = some (cachedFetch net st url).1 := by
  unfold cachedFetch lruLookup moveToFront
  cases hfind : st.cache.find? (fun e => e.1 == url) with
  | none =>
    simp only [hfind]
    rw [List.take_succ_cons, List.find?_cons_of_pos _ (by simp)]
  | some e =>
    have hpe := List.find?_some hfind
    have he1 : e.1 = url := by simpa using hpe
    simp only [hfind]
    rw [List.find?_cons_of_pos _ (by simp [he1])]

theorem cachedFetch_cache_len (net : String → GetOutcome) (st : FetchState) (url : String)
    (hcap : st.cache.length ≤ 128) :
    (cachedFetch net st url).2.cache.length ≤ 128 := by
  unfold cachedFetch lruLookup moveToFront
  cases hfind : st.cache.find? (fun e => e.1 == url) with
  | none =>
    simp only [hfind]
    exact List.length_take_le _ _
  | some e =>
    have hmem : e ∈ st.cache := List.mem_of_find?_eq_some hfind
    have hpe := List.find?_some hfind
    have hlt : (st.cache.filter (fun e2 => !(e2.1 == url))).length < st.cache.length := by
      rw [List.length_filter_lt_length_iff_exists]
      exact ⟨e, hmem, by simp [hpe]⟩
    simp only [hfind, List.length_cons]
    omega

set_option maxRecDepth 10000 in
/-- Claim C5 counterexample: with capacity 128, fetching 129 distinct URLs
and then the first one again re-issues the network request for it — its call
count is 2, refuting process-lifetime memoization with no automatic
invalidation. -/
theorem C5_counterexample :
    ((runFetches (fun _ => GetOutcome.exn "down") (FetchState.mk [] [])
        (((List.range 129).map (fun i => "u" ++ toString i)) ++ ["u0"])).calls.count "u0")
      = 2 := by
  decide

/-- Claim C5 (amended): fetch_url_text results — successes and failures
alike — are memoized by exact URL string in an LRU cache of capacity 128: an
immediate second call with the same URL returns the first call's result
without issuing a network request (the call log is unchanged), and the cache
never holds more than 128 entries, beyond which least-recently-used URLs are
evicted and must be re-fetched. -/
theorem C5_theorem (net : String → GetOutcome) (st : FetchState) (url : String)
    (hcap : st.cache.length ≤ 128) :
    (cachedFetch net (cachedFetch net st url).2 url).1 = (cachedFetch net st url).1
    ∧ (cachedFetch net (cachedFetch net st url).2 url).2.calls
        = (cachedFetch net st url).2.calls
    ∧ (cachedFetch net st url).2.cache.length ≤ 128 := by
  have hl := cachedFetch_lookup net st url
  have h2 := cachedFetch_hit net (cachedFetch net st url).2 url _ hl
  exact ⟨by rw [h2], by rw [h2], cachedFetch_cache_len net st url hcap⟩

/-- Claim C5 witness: the amended statement instantiated at an empty cache,
an unreachable network, and the URL "u". -/
theorem C5_witness :
    (FetchState.mk [] []).cache.length ≤ 128
    ∧ ((cachedFetch (fun _ => GetOutcome.exn "down")
            (cachedFetch (fun _ => GetOutcome.exn "down") (FetchState.mk [] []) "u").2 "u").1
          = (cachedFetch (fun _ => GetOutcome.exn "down") (FetchState.mk [] []) "u").1
      ∧ (cachedFetch (fun _ => GetOutcome.exn "down")
            (cachedFetch (fun _ => GetOutcome.exn "down") (FetchState.mk [] []) "u").2 "u").2.calls
          = (cachedFetch (fun _ => GetOutcome.exn "down") (FetchState.mk [] []) "u").2.calls
      ∧ (cachedFetch (fun _ => GetOutcome.exn "down") (FetchState.mk [] []) "u").2.cache.length
          ≤ 128) :=
  ⟨by decide, C5_theorem (fun _ => GetOutcome.exn "down") (FetchState.mk [] []) "u" (by decide)⟩

/-! Claims C6 and C10: the summarization short-circuit. -/

theorem summarize_shortcircuit (gen : Except String String) (text : String)
    (h : (decide (text = "") || pyStartswith text "ERROR") = true) :
    summarize_text_with_gemini gen text
      = ("Could not summarize due to a content error: "
          ++ (pySplitColonSpace text).getLastD "", 0) := by
  unfold summarize_text_with_gemini
  rw [if_pos h]

/-- Claim C6 (confirmed): for the empty input and for every ERROR-tagged
input, summarize_text_with_gemini short-circuits — the model-call count is 0
whatever the model oracle would have answered — and propagates the error as
the apology string carrying the last colon-space segment of the input. -/
theorem C6_theorem (gen : Except String String) (text : String)
    (h : text = "" ∨ pyStartswith text "ERROR" = true) :
    (summarize_text_with_gemini gen text).2 = 0
    ∧ (summarize_text_with_gemini gen text).1
        = "Could not summarize due to a content error: "
            ++ (pySplitColonSpace text).getLastD "" := by
  have hcond : (decide (text = "") || pyStartswith text "ERROR") = true := by
    rcases h with h | h
    · subst h; rfl
    · simp [h]
  rw [summarize_shortcircuit gen text hcond]
  exact ⟨rfl, rfl⟩

/-- Claim C6 witness: the theorem instantiated at the empty input and at an
ERROR_FETCH-tagged input. -/
theorem C6_witness :
    ("ERROR_FETCH: Request failed - boom" = ""
        ∨ pyStartswith "ERROR_FETCH: Request failed - boom" "ERROR" = true)
    ∧ (summarize_text_with_gemini (Except.ok "S") "ERROR_FETCH: Request failed - boom").2 = 0
    ∧ (summarize_text_with_gemini (Except.ok "S") "ERROR_FETCH: Request failed - boom").1
        = "Could not summarize due to a content error: "
            ++ (pySplitColonSpace "ERROR_FETCH: Request failed - boom").getLastD "" :=
  ⟨Or.inr (by decide),
    C6_theorem (Except.ok "S") "ERROR_FETCH: Request failed - boom" (Or.inr (by decide))⟩

theorem ui_marks_failed_apology (x : String) :
    ui_marks_failed ("Could not summarize due to a content error: " ++ x) = false := by
  unfold ui_marks_failed
  rw [pyStartswith_append _ _ _ (by decide), pyStartswith_append _ _ _ (by decide)]
  decide

/-- Claim C10 (confirmed): for every ERROR-prefixed input, the short-circuit
result of summarize_text_with_gemini is the apology string keeping only the
segment after the last colon-space of the input; it starts with neither
"ERROR" nor "CRITICAL_ERROR", so the prefix check search_page applies before
rendering classifies it as a successful summary (plain-markdown branch). -/
theorem C10_theorem (gen : Except String String) (text : String)
    (h : pyStartswith text "ERROR" = true) :
    (summarize_text_with_gemini gen text).1
        = "Could not summarize due to a content error: "
            ++ (pySplitColonSpace text).getLastD ""
    ∧ ui_marks_failed (summarize_text_with_gemini gen text).1 = false := by
  have hcond : (decide (text = "") || pyStartswith text "ERROR") = true := by simp [h]
  rw [summarize_shortcircuit gen text hcond]
  exact ⟨rfl, ui_marks_failed_apology _⟩

/-- Claim C10 witness: the theorem instantiated at an ERROR_FETCH-tagged
input, with the model oracle answering normally. -/
theorem C10_witness :
    pyStartswith "ERROR_FETCH: Request failed - 404" "ERROR" = true
    ∧ (summarize_text_with_gemini (Except.ok "S") "ERROR_FETCH: Request failed - 404").1
        = "Could not summarize due to a content error: "
            ++ (pySplitColonSpace "ERROR_FETCH: Request failed - 404").getLastD ""
    ∧ ui_marks_failed
        (summarize_text_with_gemini (Except.ok "S") "ERROR_FETCH: Request failed - 404").1
      = false :=
  ⟨by decide,
    C10_theorem (Except.ok "S") "ERROR_FETCH: Request failed - 404" (by decide)⟩

/-! Claim C7: summary_dict invalidation on query change. The pages variant
clears the dict only inside the non-empty-results branch; the main variant's
block under the clearing comment merely creates the key when it is absent and
never clears existing entries, contradicting both its own comment and the
spec's documented policy. -/

/-- Claim C7 code evaluation at the failing input: with a cached entry from
the previous query "alpha" and the new query "beta" (which has a matching
row), the src/streamlit_app.py rerun leaves the stale summary_dict entry in
place, while the src/pages/streamlit_app.py rerun clears it wholesale. -/
theorem C7_code_eval :
    main_search_step [Row.mk (some "beta study") "L"] "beta" true
        [("summary_0", "old summary")]
      = [("summary_0", "old summary")]
    ∧ pages_search_step [Row.mk (some "beta study") "L"] "beta"
        (Session.mk [("summary_0", "old summary")] (some "alpha"))
      = Session.mk [] (some "beta") := by
  decide

end SB
